import Mathlib

/-!
Verification of the rclone-manager scripts' flag store, serve-port planner,
CLI dispatch and filesystem navigator, embedded shallowly from the Python
sources (`codes/serve_remote.py`, `codes/manage_config.py`,
`codes/rclone_serve.py`, `rclone_scripts/core.py`, `rclone_scripts/cli.py`,
`src/rclone_scripts/utils.py`, `codes/utils.py`).
-/

set_option autoImplicit false

namespace RcloneManager

/-! ## Flag store

The persisted configuration is a JSON document `{"flags": {remoteType: {flag: value}}}`
(`codes/config.py DEFAULT_CONFIG`, `codes/rclone_serve.py DEFAULT_CONFIG`).
Python dicts preserve insertion order, so an ordered association list is the
faithful embedding of each level. Flag values written by the menu are strings;
the Python truthiness test `if value:` on a string is `value ≠ ""`.
-/

/-- An ordered `flag → value` mapping (one Python dict inside `config["flags"]`). -/
abbrev FlagSet := List (String × String)

/-- First-match association-list lookup: Python `table[k]` / `k in table` on a dict
whose insertion order is the list order. -/
def assocFind {α : Type} (table : List (String × α)) (k : String) : Option α :=
  (table.find? (fun p => p.1 == k)).map (·.2)

/-- The in-memory configuration document. `flags = none` models a JSON object
with no `"flags"` key (`get_flags` checks `"flags" not in config`). -/
structure Config where
  flags : Option (List (String × FlagSet))
deriving DecidableEq

/-- The loop body of `get_flags` (`codes/serve_remote.py:61-69` and the identical
`codes/rclone_serve.py:162-170`): for each stored `(key, value)` pair, skip it
when `remote_type == "drive" and not shared`, otherwise append `key` and then
`value` only when `value` is truthy (non-empty). -/
def flagLoop (remoteType : String) (shared : Bool) : FlagSet → List String
  | [] => []
  | (key, value) :: rest =>
    if remoteType = "drive" ∧ shared = false then
      flagLoop remoteType shared rest
    else
      key :: ((if value = "" then [] else [value]) ++ flagLoop remoteType shared rest)

/-- `get_flags(remote_type, shared)` (`codes/serve_remote.py:54-69`): returns `[]`
when the document has no `"flags"` table or no entry for `remote_type`,
otherwise flattens the stored FlagSet through `flagLoop`. -/
def get_flags (config : Config) (remoteType : String) (shared : Bool) : List String :=
  match config.flags with
  | none => []
  | some table =>
    match assocFind table remoteType with
    | none => []
    | some flagConfigs => flagLoop remoteType shared flagConfigs

/-- The FlagSet stored for `remoteType` (empty when absent): the
`config["flags"][remote_type]` lookup that `get_flags` performs. -/
def storedFlagSet (config : Config) (remoteType : String) : FlagSet :=
  match config.flags with
  | none => []
  | some table => (assocFind table remoteType).getD []

/-- Spec-side rendering of a stored FlagSet as an argument sequence, in stored
order: each pair contributes its flag name, then its value iff non-empty. -/
def flagsetArgs (fs : FlagSet) : List String :=
  fs.flatMap (fun p => p.1 :: (if p.2 = "" then [] else [p.2]))

theorem flagLoop_drive_unshared (fs : FlagSet) : flagLoop "drive" false fs = [] := by
  induction fs with
  | nil => rfl
  | cons p rest ih =>
    obtain ⟨key, value⟩ := p
    simpa [flagLoop] using ih

theorem flagLoop_eq_flagsetArgs (remoteType : String) (shared : Bool) (fs : FlagSet)
    (h : ¬(remoteType = "drive" ∧ shared = false)) :
    flagLoop remoteType shared fs = flagsetArgs fs := by
  induction fs with
  | nil => rfl
  | cons p rest ih =>
    obtain ⟨key, value⟩ := p
    simp [flagLoop, flagsetArgs, h, List.flatMap] at ih ⊢
    exact ih

theorem get_flags_eq_flagLoop (config : Config) (remoteType : String) (shared : Bool) :
    get_flags config remoteType shared = flagLoop remoteType shared (storedFlagSet config remoteType) := by
  unfold get_flags storedFlagSet
  cases hf : config.flags with
  | none => rfl
  | some table =>
    cases ha : assocFind table remoteType with
    | none => simp [ha, flagLoop]
    | some fs => simp [ha]

/-- Python `list.remove(y)`: drop the first occurrence of `y`. -/
def removeFirst : List String → String → List String
  | [], _ => []
  | x :: xs, y => if x = y then xs else x :: removeFirst xs y

/-- The drive adjustment of `_serve_remote_thread` (`rclone_scripts/core.py:104-118`),
applied to the flags resolved by `get_rclone_flags` for the remote's type: serving
the shared drive appends `--drive-shared-with-me` when it is absent; serving the
main drive removes it (first occurrence) when present; every other resolved flag is
passed through unchanged in both cases, and non-drive types are untouched. -/
def serveThreadFlags (remoteType : String) (shared : Bool) (flags : List String) :
    List String :=
  if remoteType = "drive" then
    if shared then
      if "--drive-shared-with-me" ∈ flags then flags
      else flags ++ ["--drive-shared-with-me"]
    else
      if "--drive-shared-with-me" ∈ flags then removeFirst flags "--drive-shared-with-me"
      else flags
  else flags

/-- C1 counterexample: at the cited serve path `rclone_scripts/core.py
_serve_remote_thread`, a drive remote whose stored flags resolve to
`--vfs-cache-mode full` keeps both flags when served non-shared (not an empty
sequence), and when served shared gets `--drive-shared-with-me` appended (not
exactly the stored set). -/
theorem serve_thread_drive_flags_not_suppressed :
    serveThreadFlags "drive" false ["--vfs-cache-mode", "full"] =
      ["--vfs-cache-mode", "full"] ∧
    serveThreadFlags "drive" false ["--vfs-cache-mode", "full"] ≠ ([] : List String) ∧
    serveThreadFlags "drive" true ["--vfs-cache-mode", "full"] =
      ["--vfs-cache-mode", "full", "--drive-shared-with-me"] := by
  refine ⟨?_, ?_, ?_⟩ <;> decide

/-- C1 (amended): the `codes/*` resolver `get_flags` yields the empty sequence for
remote type "drive" with `shared = false` and exactly the stored FlagSet flattened
in stored order with `shared = true`, the suppression living only in the resolution
loop; the serve path in `rclone_scripts/core.py` (`_serve_remote_thread`) does not
suppress: for a drive remote it passes the resolved flags through, only removing
`--drive-shared-with-me` when not shared and appending it when shared, so a
non-shared drive keeps every other stored flag and a shared one serves a strict
superset of them. -/
theorem drive_flag_resolution_paths :
    (∀ (config : Config),
      get_flags config "drive" false = [] ∧
      get_flags config "drive" true = flagsetArgs (storedFlagSet config "drive")) ∧
    (∀ (flags : List String), "--drive-shared-with-me" ∉ flags →
      serveThreadFlags "drive" false flags = flags) ∧
    (∀ (flags : List String), "--drive-shared-with-me" ∉ flags →
      serveThreadFlags "drive" true flags = flags ++ ["--drive-shared-with-me"]) ∧
    (∀ (flags : List String),
      "--drive-shared-with-me" ∈ serveThreadFlags "drive" true flags) := by
  refine ⟨?_, ?_, ?_, ?_⟩
  · intro config
    constructor
    · rw [get_flags_eq_flagLoop]
      exact flagLoop_drive_unshared _
    · rw [get_flags_eq_flagLoop]
      exact flagLoop_eq_flagsetArgs _ _ _ (by simp)
  · intro flags h
    simp [serveThreadFlags, h]
  · intro flags h
    simp [serveThreadFlags, h]
  · intro flags
    by_cases h : "--drive-shared-with-me" ∈ flags <;> simp [serveThreadFlags, h]

/-- A concrete stored document with a drive FlagSet, used to instantiate
`drive_flag_resolution_paths`. -/
def driveConfig : Config :=
  ⟨some [("drive", [("--vfs-cache-mode", "full")])]⟩

theorem drive_flag_resolution_paths_witness :
    (get_flags driveConfig "drive" false = [] ∧
      get_flags driveConfig "drive" true = flagsetArgs (storedFlagSet driveConfig "drive")) ∧
    serveThreadFlags "drive" false ["--vfs-cache-mode"] = ["--vfs-cache-mode"] ∧
    serveThreadFlags "drive" true ["--vfs-cache-mode"] =
      ["--vfs-cache-mode"] ++ ["--drive-shared-with-me"] ∧
    "--drive-shared-with-me" ∈ serveThreadFlags "drive" true ["--vfs-cache-mode"] :=
  ⟨drive_flag_resolution_paths.1 driveConfig,
   drive_flag_resolution_paths.2.1 ["--vfs-cache-mode"] (by decide),
   drive_flag_resolution_paths.2.2.1 ["--vfs-cache-mode"] (by decide),
   drive_flag_resolution_paths.2.2.2 ["--vfs-cache-mode"]⟩

theorem not_mem_flagsetArgs_of_keys_ne (fs : FlagSet)
    (h : ∀ p ∈ fs, p.1 ≠ "") : "" ∉ flagsetArgs fs := by
  induction fs with
  | nil => simp [flagsetArgs]
  | cons p rest ih =>
    obtain ⟨key, value⟩ := p
    have hkey : key ≠ "" := h (key, value) (by simp)
    have hrest : "" ∉ flagsetArgs rest := ih (fun q hq => h q (List.mem_cons_of_mem _ hq))
    by_cases hv : value = ""
    · simpa [flagsetArgs, List.flatMap_cons, hv, Ne.symm hkey] using hrest
    · simpa [flagsetArgs, List.flatMap_cons, hv, Ne.symm hkey, Ne.symm hv] using hrest

/-- C10: resolving the flag store into an argument sequence makes every stored flag
contribute its name as one element, followed by its value as a separate element iff
the value is non-empty (an empty-valued flag contributes exactly one element); hence,
when resolution is not suppressed (non-drive, or shared) and the stored flag names
are non-empty, no empty-string argument appears in the assembled command. -/
theorem resolved_flags_shape (config : Config) (remoteType : String) (shared : Bool)
    (hdrive : remoteType = "drive" → shared = true)
    (hkeys : ∀ p ∈ storedFlagSet config remoteType, p.1 ≠ "") :
    get_flags config remoteType shared = flagsetArgs (storedFlagSet config remoteType) ∧
    "" ∉ get_flags config remoteType shared := by
  have hns : ¬(remoteType = "drive" ∧ shared = false) := by
    rintro ⟨h1, h2⟩
    rw [hdrive h1] at h2
    exact Bool.noConfusion h2
  have heq : get_flags config remoteType shared = flagsetArgs (storedFlagSet config remoteType) := by
    rw [get_flags_eq_flagLoop]
    exact flagLoop_eq_flagsetArgs _ _ _ hns
  refine ⟨heq, ?_⟩
  rw [heq]
  exact not_mem_flagsetArgs_of_keys_ne _ hkeys

/-- A concrete stored document used to instantiate `resolved_flags_shape`. -/
def megaConfig : Config :=
  ⟨some [("mega", [("--vfs-cache-mode", "writes"), ("--read-only", "")])]⟩

theorem resolved_flags_shape_witness :
    get_flags megaConfig "mega" false = flagsetArgs (storedFlagSet megaConfig "mega") ∧
    "" ∉ get_flags megaConfig "mega" false :=
  resolved_flags_shape megaConfig "mega" false (by decide) (by decide)

/-! ## AddOrUpdate

Two variants exist in the sources. The JSON menu (`codes/manage_config.py`
`add_flag`/`edit_flag`) mutates a Python dict with `config["flags"][remote_type][flag] = value`:
an insertion-ordered dict keeps an existing key at its position and appends an
absent key at the end. The INI menu (`rclone_scripts/core.py manage_config`,
choice "2") stores each remote type's flags as one newline-joined string and
rebuilds it as `[f for f in existing if not f.startswith(flag_key)] + [flag_to_add]`.
-/

/-- Python dict item assignment `d[k] = v` on an insertion-ordered dict
(the mutation performed by `add_flag`/`edit_flag` in `codes/manage_config.py`):
overwrite in place if the key is present, else append. -/
def dictSet : FlagSet → String → String → FlagSet
  | [], k, v => [(k, v)]
  | (k', v') :: rest, k, v =>
    if k' = k then (k', v) :: rest else (k', v') :: dictSet rest k v

/-- The iteration order of a FlagSet: its keys in list order. -/
def flagKeys (fs : FlagSet) : List String := fs.map (·.1)

theorem flagKeys_dictSet (fs : FlagSet) (k v : String) :
    flagKeys (dictSet fs k v) =
      if k ∈ flagKeys fs then flagKeys fs else flagKeys fs ++ [k] := by
  induction fs with
  | nil => simp [dictSet, flagKeys]
  | cons p rest ih =>
    obtain ⟨k', v'⟩ := p
    by_cases h : k' = k
    · subst h
      simp [dictSet, flagKeys]
    · simp only [dictSet, if_neg h, flagKeys, List.map_cons] at ih ⊢
      rw [ih]
      have hcons : (k ∈ k' :: List.map (fun x => x.1) rest) ↔ k ∈ List.map (fun x => x.1) rest := by
        simp [List.mem_cons, Ne.symm h]
      by_cases hm : k ∈ List.map (fun x => x.1) rest
      · rw [if_pos hm, if_pos (hcons.mpr hm)]
      · rw [if_neg hm, if_neg (fun hk => hm (hcons.mp hk))]
        simp

theorem assocFind_dictSet (fs : FlagSet) (k v : String) :
    assocFind (dictSet fs k v) k = some v := by
  induction fs with
  | nil => simp [dictSet, assocFind]
  | cons p rest ih =>
    obtain ⟨k', v'⟩ := p
    by_cases h : k' = k
    · subst h
      simp [dictSet, assocFind]
    · simp only [dictSet, if_neg h]
      have hb : ¬((fun p => p.1 == k) ((k', v') : String × String)) = true := by
        simpa using h
      unfold assocFind at ih ⊢
      rw [List.find?_cons_of_neg (dictSet rest k v) hb]
      exact ih

/-- A sequence of `AddOrUpdate(flag, value)` operations applied to one FlagSet. -/
def applyOps (fs : FlagSet) (ops : List (String × String)) : FlagSet :=
  ops.foldl (fun acc op => dictSet acc op.1 op.2) fs

/-- Spec-side order of first insertion for a sequence of operations, starting from
already-present keys `ks`. -/
def firstInsertOrder (ks : List String) (ops : List (String × String)) : List String :=
  ops.foldl (fun acc op => if op.1 ∈ acc then acc else acc ++ [op.1]) ks

/-- C2 (amended): in the dict-based config menu, AddOrUpdate keeps an existing flag at
its original position (its key sequence is unchanged; the new value is looked up at the
same key), appends an absent flag, and over any operation sequence the iteration order
equals the order of first insertion; in the INI-based menu the updated flag is instead
always moved to the last position. -/
theorem addOrUpdate_keeps_first_insert_order :
    (∀ (fs : FlagSet) (k v : String), k ∈ flagKeys fs →
      flagKeys (dictSet fs k v) = flagKeys fs) ∧
    (∀ (fs : FlagSet) (k v : String), k ∉ flagKeys fs →
      flagKeys (dictSet fs k v) = flagKeys fs ++ [k]) ∧
    (∀ (fs : FlagSet) (k v : String), assocFind (dictSet fs k v) k = some v) ∧
    (∀ (ops : List (String × String)) (fs : FlagSet),
      flagKeys (applyOps fs ops) = firstInsertOrder (flagKeys fs) ops) := by
  have horder : ∀ (ops : List (String × String)) (fs : FlagSet),
      flagKeys (applyOps fs ops) = firstInsertOrder (flagKeys fs) ops := by
    intro ops
    induction ops with
    | nil => intro fs; rfl
    | cons op rest ih =>
      intro fs
      show flagKeys (applyOps (dictSet fs op.1 op.2) rest) =
        firstInsertOrder (if op.1 ∈ flagKeys fs then flagKeys fs else flagKeys fs ++ [op.1]) rest
      rw [ih, flagKeys_dictSet]
  refine ⟨?_, ?_, assocFind_dictSet, horder⟩
  · intro fs k v hk
    rw [flagKeys_dictSet, if_pos hk]
  · intro fs k v hk
    rw [flagKeys_dictSet, if_neg hk]

theorem addOrUpdate_keeps_first_insert_order_witness :
    flagKeys (dictSet [("--vfs-cache-mode", "writes"), ("--transfers", "4")] "--vfs-cache-mode" "full") =
      flagKeys [("--vfs-cache-mode", "writes"), ("--transfers", "4")] ∧
    assocFind (dictSet [("--vfs-cache-mode", "writes"), ("--transfers", "4")] "--vfs-cache-mode" "full")
      "--vfs-cache-mode" = some "full" :=
  ⟨addOrUpdate_keeps_first_insert_order.1 _ _ "full" (by decide),
   addOrUpdate_keeps_first_insert_order.2.2.1 _ "--vfs-cache-mode" "full"⟩

/-- `flag_to_add.split('=')[0]` (`rclone_scripts/core.py:334`): the flag's key is the
text before the first `=` (the whole line when there is none). -/
def flagKeyOf (flagToAdd : String) : List Char :=
  flagToAdd.toList.takeWhile (fun c => c ≠ '=')

/-- The Add/Edit branch of `manage_config` (`rclone_scripts/core.py:327-341`): drop
every existing line whose text starts with the new flag's key, then append the new
line at the end. `str.startswith` is list-level `isPrefixOf` on the characters. -/
def iniAddOrUpdate (existingFlags : List String) (flagToAdd : String) : List String :=
  (existingFlags.filter (fun f => !((flagKeyOf flagToAdd).isPrefixOf f.toList))) ++ [flagToAdd]

/-- C2 counterexample: updating the value of `--vfs-cache-mode`, stored first, through
the INI-based menu moves it to the last position instead of keeping it first. -/
theorem addOrUpdate_moves_updated_flag_to_end :
    iniAddOrUpdate ["--vfs-cache-mode=writes", "--transfers=4"] "--vfs-cache-mode=full" =
      ["--transfers=4", "--vfs-cache-mode=full"] ∧
    iniAddOrUpdate ["--vfs-cache-mode=writes", "--transfers=4"] "--vfs-cache-mode=full" ≠
      ["--vfs-cache-mode=full", "--transfers=4"] := by
  constructor <;> decide

/-! ## Loading the flag store

`load_config` (`codes/manage_config.py:8-16`, `codes/serve_remote.py:38-52`): when
the config file does not exist it writes `DEFAULT_CONFIG` to disk and returns it;
otherwise it runs `json.load` on the file with no surrounding `try`, so a malformed
document raises `json.JSONDecodeError`, which no caller catches.
-/

/-- The on-disk document as seen by `json.load`: either parses to a `Config` or is
malformed structured data. -/
inductive JsonDoc where
  | wellFormed (c : Config)
  | malformed
deriving DecidableEq

/-- Outcome of `load_config`: a returned configuration (with whether the default was
persisted to disk), or an uncaught exception propagating out of the call. -/
inductive LoadResult where
  | ok (c : Config) (persistedDefault : Bool)
  | raised
deriving DecidableEq

/-- `DEFAULT_CONFIG` (`codes/config.py:20-26`): empty FlagSets for drive, mega and
google photos. -/
def DEFAULT_CONFIG : Config :=
  ⟨some [("drive", []), ("mega", []), ("google photos", [])]⟩

/-- `load_config` (`codes/manage_config.py:8-16`): absent file → write and return
`DEFAULT_CONFIG`; present file → `json.load`, whose parse error is uncaught. -/
def load_config : Option JsonDoc → LoadResult
  | none => .ok DEFAULT_CONFIG true
  | some (.wellFormed c) => .ok c false
  | some .malformed => .raised

/-- C6 counterexample: a present but malformed config file makes `load_config` raise
an uncaught parse error instead of reporting and falling back to the defaults. -/
theorem load_config_malformed_raises :
    load_config (some JsonDoc.malformed) = LoadResult.raised ∧
    load_config (some JsonDoc.malformed) ≠ LoadResult.ok DEFAULT_CONFIG false ∧
    load_config (some JsonDoc.malformed) ≠ LoadResult.ok DEFAULT_CONFIG true := by
  refine ⟨rfl, ?_, ?_⟩ <;> decide

/-- C6 (amended): when the on-disk document is absent, `load_config` returns the
built-in default store and persists it; when the document is present and malformed,
the parse error escapes `load_config` uncaught (no fallback configuration of any
kind is returned), and a well-formed document is returned as parsed. -/
theorem load_config_spec :
    load_config none = LoadResult.ok DEFAULT_CONFIG true ∧
    (∀ c p, load_config (some JsonDoc.malformed) ≠ LoadResult.ok c p) ∧
    (∀ c, load_config (some (JsonDoc.wellFormed c)) = LoadResult.ok c false) := by
  refine ⟨rfl, ?_, fun c => rfl⟩
  intro c p hcontra
  exact LoadResult.noConfusion hcontra

/-! ## Serve-session port planner

`serve_remote` (`rclone_scripts/core.py:19-92`) plans jobs first: for each selected
remote it adds a job at the running `port` counter; when the remote's type is
"drive" and the user answers "y" to serving the shared drive too, it adds a shared
job at `port + 1` and advances the counter by 2, otherwise it advances by 1.
-/

/-- One selected remote in the planning loop: whether `get_remote_type` returned
"drive", and whether the user answered "y" to the shared-drive prompt (only asked
for drive remotes). -/
structure RemoteReq where
  isDrive : Bool
  shareAnswerYes : Bool
deriving DecidableEq

/-- One entry of `jobs_to_run`: the position of its remote in the selection, the
port, and the `shared` flag. -/
structure ServeJob where
  remoteIdx : Nat
  port : Nat
  shared : Bool
deriving DecidableEq

/-- The planning phase of `serve_remote` (`rclone_scripts/core.py:45-67`), with the
running port counter and remote position as accumulators. -/
def planJobs : List RemoteReq → Nat → Nat → List ServeJob
  | [], _, _ => []
  | r :: rest, port, idx =>
    ⟨idx, port, false⟩ ::
      (if r.isDrive && r.shareAnswerYes then
        ⟨idx, port + 1, true⟩ :: planJobs rest (port + 2) (idx + 1)
      else
        planJobs rest (port + 1) (idx + 1))

/-- Spec-side base ports: the next remote's base port is the previous base plus 2
when a shared companion was started, else plus 1. -/
def basePorts : List RemoteReq → Nat → List Nat
  | [], _ => []
  | r :: rest, p => p :: basePorts rest (p + (if r.isDrive && r.shareAnswerYes then 2 else 1))

/-- Spec-side shared companions: remote position paired with its port, which is the
remote's base port plus 1. -/
def sharedCompanions : List RemoteReq → Nat → Nat → List (Nat × Nat)
  | [], _, _ => []
  | r :: rest, p, i =>
    if r.isDrive && r.shareAnswerYes then (i, p + 1) :: sharedCompanions rest (p + 2) (i + 1)
    else sharedCompanions rest (p + 1) (i + 1)

theorem planJobs_port_lb (reqs : List RemoteReq) (p i : Nat) :
    ∀ j ∈ planJobs reqs p i, p ≤ j.port := by
  induction reqs generalizing p i with
  | nil => intro j hj; exact absurd hj (List.not_mem_nil j)
  | cons r rest ih =>
    intro j hj
    by_cases hdr : r.isDrive && r.shareAnswerYes
    · simp only [planJobs, if_pos hdr, List.mem_cons] at hj
      rcases hj with h1 | h2 | h3
      · subst h1; exact Nat.le_refl _
      · subst h2; exact Nat.le_succ _
      · exact le_trans (by omega) (ih (p + 2) (i + 1) j h3)
    · simp only [planJobs, if_neg hdr, List.mem_cons] at hj
      rcases hj with h1 | h2
      · subst h1; exact Nat.le_refl _
      · exact le_trans (Nat.le_succ _) (ih (p + 1) (i + 1) j h2)

theorem planJobs_ports_sorted (reqs : List RemoteReq) (p i : Nat) :
    ((planJobs reqs p i).map (·.port)).Pairwise (· < ·) := by
  induction reqs generalizing p i with
  | nil => simp [planJobs]
  | cons r rest ih =>
    by_cases hdr : r.isDrive && r.shareAnswerYes
    · simp only [planJobs, if_pos hdr, List.map_cons]
      refine List.Pairwise.cons ?_ (List.Pairwise.cons ?_ (ih (p + 2) (i + 1)))
      · intro q hq
        simp only [List.mem_cons, List.mem_map] at hq
        rcases hq with h1 | ⟨j, hj, hjq⟩
        · omega
        · have := planJobs_port_lb rest (p + 2) (i + 1) j hj
          omega
      · intro q hq
        simp only [List.mem_map] at hq
        obtain ⟨j, hj, hjq⟩ := hq
        have := planJobs_port_lb rest (p + 2) (i + 1) j hj
        omega
    · simp only [planJobs, if_neg hdr, List.map_cons]
      refine List.Pairwise.cons ?_ (ih (p + 1) (i + 1))
      intro q hq
      simp only [List.mem_map] at hq
      obtain ⟨j, hj, hjq⟩ := hq
      have := planJobs_port_lb rest (p + 1) (i + 1) j hj
      omega

theorem planJobs_base_ports (reqs : List RemoteReq) (p i : Nat) :
    ((planJobs reqs p i).filter (fun j => !j.shared)).map (·.port) = basePorts reqs p := by
  induction reqs generalizing p i with
  | nil => rfl
  | cons r rest ih =>
    by_cases hdr : r.isDrive && r.shareAnswerYes
    · simp only [planJobs, if_pos hdr, basePorts, hdr, if_true]
      simp [List.filter, ih]
    · simp only [planJobs, if_neg hdr, basePorts, hdr, if_false]
      simp [List.filter, ih]

theorem planJobs_shared_ports (reqs : List RemoteReq) (p i : Nat) :
    ((planJobs reqs p i).filter (fun j => j.shared)).map (fun j => (j.remoteIdx, j.port)) =
      sharedCompanions reqs p i := by
  induction reqs generalizing p i with
  | nil => rfl
  | cons r rest ih =>
    by_cases hdr : r.isDrive && r.shareAnswerYes
    · simp only [planJobs, if_pos hdr, sharedCompanions, hdr, if_true]
      simp [List.filter, ih]
    · simp only [planJobs, if_neg hdr, sharedCompanions, hdr, if_false]
      simp [List.filter, ih]

/-- C3 (amended, for the session planner in `rclone_scripts/core.py`): within one
session, job ports strictly increase in planning order (so no port is assigned
twice); the non-shared jobs receive exactly the spec's base ports, where the next
remote's base is the previous base plus 2 when a shared companion was started and
plus 1 otherwise; and every shared companion serves on its remote's base port
plus 1. -/
theorem planJobs_port_allocation (reqs : List RemoteReq) (p i : Nat) :
    ((planJobs reqs p i).map (·.port)).Pairwise (· < ·) ∧
    ((planJobs reqs p i).filter (fun j => !j.shared)).map (·.port) = basePorts reqs p ∧
    ((planJobs reqs p i).filter (fun j => j.shared)).map (fun j => (j.remoteIdx, j.port)) =
      sharedCompanions reqs p i :=
  ⟨planJobs_ports_sorted reqs p i, planJobs_base_ports reqs p i, planJobs_shared_ports reqs p i⟩

/-- The serve jobs spawned by `main` in `codes/rclone_serve.py:215-225`: a drive
remote gets two fixed-port threads, at 8080 and (shared) 9090; any other remote gets
one thread at 8080. -/
def rcloneServeMainJobs (remoteType : Option String) : List ServeJob :=
  if remoteType = some "drive" then
    [⟨0, 8080, false⟩, ⟨0, 9090, true⟩]
  else
    [⟨0, 8080, false⟩]

/-- C3 counterexample: the standalone `codes/rclone_serve.py` script serves the
shared drive companion on port 9090 while the base instance uses 8080, so the shared
instance is not at base port + 1. -/
theorem rclone_serve_shared_port_not_base_plus_one :
    ((rcloneServeMainJobs (some "drive")).filter (fun j => j.shared)).map (·.port) = [9090] ∧
    ((rcloneServeMainJobs (some "drive")).filter (fun j => !j.shared)).map (·.port) = [8080] ∧
    (9090 : Nat) ≠ 8080 + 1 := by
  refine ⟨?_, ?_, ?_⟩ <;> decide

/-! ## CLI dispatch

`main` in `rclone_scripts/cli.py:14-71`: argparse dispatch over the subcommands;
no subcommand falls through to `parser.print_help()`; the dispatch is wrapped in
`try/except KeyboardInterrupt`, whose handler prints the cancellation notice and
lets `main` return normally, so the interpreter exits with status 0 either way.
-/

/-- The CLI subcommands registered in `rclone_scripts/cli.py`. -/
inductive CliCmd where
  | serveRemote
  | serveLocal
  | upload
  | download
  | sync
  | config
deriving DecidableEq

/-- Observable outcome of one CLI run. -/
structure CliOutcome where
  printedHelp : Bool
  printedCancel : Bool
  exitCode : Nat
deriving DecidableEq

/-- `main` (`rclone_scripts/cli.py:53-71`): `interrupted` says whether a
KeyboardInterrupt unwound out of the dispatched call; when it did, the handler at
line 70 prints the cancellation notice and returns, so the process exits with
status 0. The `config` dispatch calls `manage_config`, which `cli.py` never
imports, so an un-interrupted `config` run raises an uncaught NameError and the
interpreter exits with status 1 (the `except KeyboardInterrupt` clause does not
catch it); every other un-interrupted dispatch returns normally with status 0. -/
def cliMain (cmd : Option CliCmd) (interrupted : Bool) : CliOutcome :=
  match cmd with
  | none => ⟨true, false, 0⟩
  | some c =>
    if interrupted then ⟨false, true, 0⟩
    else if c = CliCmd.config then ⟨false, false, 1⟩
    else ⟨false, false, 0⟩

/-- The un-interrupted `config` dispatch crashes on the missing `manage_config`
import: no help, no cancellation notice, non-zero exit status. -/
theorem cli_config_dispatch_crashes :
    cliMain (some CliCmd.config) false = ⟨false, false, 1⟩ ∧
    (cliMain (some CliCmd.config) false).exitCode ≠ 0 := by
  constructor <;> decide

/-- C8 counterexample: an interrupt unwinding out of a subcommand prints the
cancellation notice but the process still exits with status 0, not a non-zero
status. -/
theorem cli_interrupt_exits_zero :
    (cliMain (some CliCmd.serveRemote) true).printedCancel = true ∧
    (cliMain (some CliCmd.serveRemote) true).exitCode = 0 := by
  constructor <;> rfl

/-- C8 (amended): invoking the CLI with no subcommand prints help and exits with
status 0; an interrupt that unwinds out of a dispatched subcommand is caught at the
top level, prints a cancellation notice, and also exits with status 0 (the handler
returns normally instead of setting a non-zero status). -/
theorem cliMain_spec :
    (∀ interrupted, cliMain none interrupted = ⟨true, false, 0⟩) ∧
    (∀ cmd, (cliMain (some cmd) true).printedCancel = true ∧
      (cliMain (some cmd) true).exitCode = 0) := by
  refine ⟨fun interrupted => rfl, fun cmd => ⟨rfl, rfl⟩⟩

/-! ## Navigator

The interactive browse loops of `src/rclone_scripts/utils.py`:
`navigate_local_file_system` (lines 92-136) and `navigate_remote_file_system`
(lines 139-186). Each loop iteration lists the cursor, prompts, and acts on the
input; we embed one iteration as a step function. Absolute local paths are kept as
their segment lists (`renderPath` restores the string form; `os.path.dirname` on an
absolute path drops the last segment and is the identity on the root `/`). A remote
cursor is the remote name plus the trail of directory entries descended into; each
entry is a non-empty `rclone lsf` directory line ending in `/` and containing no
other `/`, so `current_path.strip('/') == f"{remote}:".strip('/')` holds exactly at
the root trail `[]`, and `os.path.dirname(current_path.rstrip('/')) + "/"` drops the
last entry.
-/

/-- `choice.split(",")`: split a character list on commas; the empty input yields
one empty token, as in Python. -/
def splitOnComma : List Char → List (List Char)
  | [] => [[]]
  | c :: rest =>
    if c = ',' then [] :: splitOnComma rest
    else
      match splitOnComma rest with
      | [] => [[c]]
      | t :: ts => (c :: t) :: ts

/-- ASCII whitespace removed by Python `str.strip()` (the forms occurring in
keyboard input). -/
def pyWhitespace (c : Char) : Bool :=
  c = ' ' || c = '\t' || c = '\n' || c = '\r'

/-- Python `str.strip()` on a character list. -/
def pyStrip (cs : List Char) : List Char :=
  ((cs.dropWhile pyWhitespace).reverse.dropWhile pyWhitespace).reverse

/-- Decimal value of a digit list. -/
def digitsToNat (ds : List Char) : Nat :=
  ds.foldl (fun n c => 10 * n + (c.toNat - 48)) 0

/-- Python `int(token)` on a stripped token (optional sign followed by ASCII
decimal digits); `none` models the `ValueError` raised on anything else. -/
def pyIntOfChars (cs : List Char) : Option Int :=
  match pyStrip cs with
  | [] => none
  | '-' :: ds => if ds ≠ [] ∧ ds.all Char.isDigit then some (-(digitsToNat ds : Int)) else none
  | '+' :: ds => if ds ≠ [] ∧ ds.all Char.isDigit then some ((digitsToNat ds : Int)) else none
  | ds => if ds.all Char.isDigit then some ((digitsToNat ds : Int)) else none

/-- The comprehension `[int(i.strip()) - 1 for i in tokens]`: `none` models the
`ValueError` aborting it. -/
def parseTokens : List (List Char) → Option (List Int)
  | [] => some []
  | tok :: rest =>
    match pyIntOfChars tok, parseTokens rest with
    | some n, some ns => some ((n - 1) :: ns)
    | _, _ => none

/-- `selected_indices = [int(i.strip()) - 1 for i in choice.split(",")]`. -/
def parseIndices (choice : String) : Option (List Int) :=
  parseTokens (splitOnComma choice.toList)

/-- Python list subscription `xs[i]`: non-negative indices are bounds-checked from
the front, negative indices count from the back; `none` models `IndexError`. -/
def pyIndex {α : Type} (xs : List α) (i : Int) : Option α :=
  if 0 ≤ i then xs[i.toNat]?
  else if (-i).toNat ≤ xs.length then xs[xs.length - (-i).toNat]? else none

/-- The comprehension `[items[i] for i in selected_indices]`: `none` models the
`IndexError` aborting it. -/
def pySelect {α : Type} (xs : List α) : List Int → Option (List α)
  | [] => some []
  | i :: rest =>
    match pyIndex xs i, pySelect xs rest with
    | some a, some as => some (a :: as)
    | _, _ => none

/-- Python `choice.lower()`. -/
def pyLower (s : String) : List Char :=
  s.toList.map Char.toLower

/-- `item.endswith("/")`. -/
def endsWithSlash (s : String) : Bool :=
  match s.toList.getLast? with
  | some c => c == '/'
  | none => false

/-- The value a navigator returns: `full_paths[0]` when exactly one item was chosen,
the whole list otherwise. -/
inductive Selection where
  | one (path : String)
  | many (paths : List String)
deriving DecidableEq

/-- The listing of one local directory as built at `src/rclone_scripts/utils.py:99-106`:
sorted non-hidden entries partitioned into directories and files, displayed as
`dirs + files`. -/
structure LocalListing where
  dirs : List String
  files : List String
deriving DecidableEq

/-- The ways `os.listdir(current_dir)` fails in the loop: `FileNotFoundError` is
caught at line 134, `PermissionError` matches no `except` clause. -/
inductive ListErr where
  | fileNotFound
  | permissionError
deriving DecidableEq

/-- Render an absolute local path from its segments (`/` at the empty list). -/
def renderPath (segs : List String) : String :=
  "/" ++ String.intercalate "/" segs

/-- Result of one iteration of the local loop: continue browsing at a (possibly
unchanged) cursor, return a selection, re-prompt with nothing assigned (the
`except (ValueError, IndexError)` branch), or die on an uncaught exception. -/
inductive LocalStepResult where
  | browse (cursor : List String)
  | ret (sel : Selection)
  | reprompt
  | crash
deriving DecidableEq

/-- One iteration of `navigate_local_file_system` (`src/rclone_scripts/utils.py:97-136`)
at cursor `cursor` with home directory `home`: `..` moves to the parent via
`os.path.dirname`; a lowercased `.` or `d` returns the cursor; otherwise the input
is parsed as comma-separated indices and resolved against `dirs + files` with Python
subscription; a single directory descends, anything else returns the joined paths.
A `FileNotFoundError` from `os.listdir` resets the cursor to home; a
`PermissionError` is uncaught. -/
def localStep (home cursor : List String) (listing : Except ListErr LocalListing)
    (choice : String) : LocalStepResult :=
  match listing with
  | .error .fileNotFound => .browse home
  | .error .permissionError => .crash
  | .ok l =>
    if choice = ".." then .browse cursor.dropLast
    else if pyLower choice = ['.'] ∨ pyLower choice = ['d'] then
      .ret (.one (renderPath cursor))
    else
      match parseIndices choice with
      | none => .reprompt
      | some idxs =>
        match pySelect (l.dirs ++ l.files) idxs with
        | none => .reprompt
        | some sel =>
          match sel with
          | [it] =>
            if l.dirs.contains it then .browse (cursor ++ [it])
            else .ret (.one (renderPath (cursor ++ [it])))
          | its => .ret (.many (its.map (fun it => renderPath (cursor ++ [it]))))

/-- `list_local_folders` (`codes/utils.py:114-124`): both `PermissionError` and
`FileNotFoundError` are caught, logged, and turned into an empty listing. -/
def list_local_folders (listing : Except ListErr (List String)) : List String :=
  match listing with
  | .ok folders => folders
  | .error _ => []

/-- A remote cursor: the remote name and the trail of directory entries descended
into (each a listing line ending in `/`). -/
structure RemoteState where
  remote : String
  segs : List String
deriving DecidableEq

/-- `current_path`: the remote name, a colon, and the concatenated trail. -/
def renderRemotePath (st : RemoteState) : String :=
  st.remote ++ ":" ++ String.join st.segs

/-- Python `str.rstrip('/')`. -/
def pyRstripSlashes (cs : List Char) : List Char :=
  (cs.reverse.dropWhile (fun c => c = '/')).reverse

/-- `os.path.dirname` (posixpath): everything up to the last `/`, with trailing
slashes stripped unless the head is empty or all slashes. -/
def osDirname (cs : List Char) : List Char :=
  let head := (cs.reverse.dropWhile (fun c => c ≠ '/')).reverse
  if head ≠ [] ∧ head.any (fun c => c ≠ '/') then pyRstripSlashes head else head

/-- The non-root ascend `os.path.dirname(current_path.rstrip('/')) + "/"`
(`src/rclone_scripts/utils.py:168`). With a trail of two or more entries this drops
the last entry; with a single entry there is no `/` left of it in
`remote:entry`, `dirname` returns the empty string, and the cursor becomes the
plain path `/`, leaving the remote namespace. -/
def ascendRemotePath (st : RemoteState) : String :=
  String.mk (osDirname (pyRstripSlashes (renderRemotePath st).toList)) ++ "/"

/-- Result of one iteration of the remote loop: `browse` continues at a remote
cursor, `browsePath` continues at a raw path string no longer of the
`remote:trail` form (produced by ascending a one-entry trail). -/
inductive RemoteStepResult where
  | browse (s : RemoteState)
  | browsePath (path : String)
  | ret (sel : Selection)
  | reprompt
deriving DecidableEq

/-- One iteration of `navigate_remote_file_system` (`src/rclone_scripts/utils.py:144-186`):
a failing `rclone lsf` is caught and returns the current path; a lowercased `.` or
`d` returns the current path; `..` is a no-op at the root (the strip-based guard
`current_path.strip('/') == f"{remote}:".strip('/')` holds exactly at the empty
trail, each trail entry being a non-empty listing line ending in `/` with no other
`/`) and otherwise recomputes the cursor with `ascendRemotePath`; otherwise
comma-separated indices are resolved against the listing, a single entry ending in
`/` descends, anything else returns the concatenated paths. -/
def remoteStep (st : RemoteState) (listing : Except Unit (List String))
    (choice : String) : RemoteStepResult :=
  match listing with
  | .error _ => .ret (.one (renderRemotePath st))
  | .ok items =>
    if pyLower choice = ['.'] ∨ pyLower choice = ['d'] then
      .ret (.one (renderRemotePath st))
    else if choice = ".." then
      if st.segs = [] then .browse st
      else .browsePath (ascendRemotePath st)
    else
      match parseIndices choice with
      | none => .reprompt
      | some idxs =>
        match pySelect items idxs with
        | none => .reprompt
        | some sel =>
          match sel with
          | [it] =>
            if endsWithSlash it then .browse ⟨st.remote, st.segs ++ [it]⟩
            else .ret (.one (renderRemotePath st ++ it))
          | its => .ret (.many (its.map (fun it => renderRemotePath st ++ it)))

theorem pySelect_singleton {α : Type} (xs : List α) (k : Int) (a : α)
    (h : pyIndex xs k = some a) : pySelect xs [k] = some [a] := by
  simp [pySelect, h]

theorem localStep_parsed (home cursor : List String) (l : LocalListing) (choice : String)
    (idxs : List Int) (sel : List String)
    (h1 : choice ≠ "..")
    (h2 : pyLower choice ≠ ['.'])
    (h3 : pyLower choice ≠ ['d'])
    (hp : parseIndices choice = some idxs)
    (hs : pySelect (l.dirs ++ l.files) idxs = some sel) :
    localStep home cursor (.ok l) choice =
      match sel with
      | [it] =>
        if l.dirs.contains it then .browse (cursor ++ [it])
        else .ret (.one (renderPath (cursor ++ [it])))
      | its => .ret (.many (its.map (fun it => renderPath (cursor ++ [it])))) := by
  have hor : ¬(pyLower choice = ['.'] ∨ pyLower choice = ['d']) := by
    rintro (h | h)
    · exact h2 h
    · exact h3 h
  simp only [localStep, if_neg h1, if_neg hor, hp, hs]
  cases sel with
  | nil => rfl
  | cons a as => cases as <;> rfl

theorem remoteStep_parsed (st : RemoteState) (items : List String) (choice : String)
    (idxs : List Int) (sel : List String)
    (h1 : choice ≠ "..")
    (h2 : pyLower choice ≠ ['.'])
    (h3 : pyLower choice ≠ ['d'])
    (hp : parseIndices choice = some idxs)
    (hs : pySelect items idxs = some sel) :
    remoteStep st (.ok items) choice =
      match sel with
      | [it] =>
        if endsWithSlash it then .browse ⟨st.remote, st.segs ++ [it]⟩
        else .ret (.one (renderRemotePath st ++ it))
      | its => .ret (.many (its.map (fun it => renderRemotePath st ++ it))) := by
  have hor : ¬(pyLower choice = ['.'] ∨ pyLower choice = ['d']) := by
    rintro (h | h)
    · exact h2 h
    · exact h3 h
  simp only [remoteStep, if_neg hor, if_neg h1, hp, hs]
  cases sel with
  | nil => rfl
  | cons a as => cases as <;> rfl

/-- C4: at cursor `/home/user` with listing `dirs = [a, b], files = [f.txt]`, the
input `0` is not rejected: `int("0") - 1 = -1` and Python subscription resolves
index -1 to the last entry, so the navigator returns `/home/user/f.txt` and the
loop terminates on an out-of-bounds index instead of re-prompting with the state
unchanged; an index above the bounds, or an unparseable command, does re-prompt. -/
theorem local_zero_input_selects_last_entry :
    localStep ["home", "user"] ["home", "user"] (.ok ⟨["a", "b"], ["f.txt"]⟩) "0" =
      .ret (.one "/home/user/f.txt") ∧
    localStep ["home", "user"] ["home", "user"] (.ok ⟨["a", "b"], ["f.txt"]⟩) "0" ≠
      .reprompt ∧
    localStep ["home", "user"] ["home", "user"] (.ok ⟨["a", "b"], ["f.txt"]⟩) "-1" =
      .browse ["home", "user", "b"] ∧
    localStep ["home", "user"] ["home", "user"] (.ok ⟨["a", "b"], ["f.txt"]⟩) "4" =
      .reprompt ∧
    localStep ["home", "user"] ["home", "user"] (.ok ⟨["a", "b"], ["f.txt"]⟩) "x" =
      .reprompt := by
  refine ⟨?_, ?_, ?_, ?_, ?_⟩ <;> decide

/-- C5 counterexample: ascending from the local navigation root (the home directory
the navigator starts at) moves the cursor to the home directory's parent rather
than leaving it unchanged. -/
theorem local_ascend_at_root_moves_up :
    localStep ["home", "user"] ["home", "user"] (.ok ⟨["a"], ["f.txt"]⟩) ".." =
      .browse ["home"] ∧
    LocalStepResult.browse ["home"] ≠ .browse ["home", "user"] := by
  constructor <;> decide

/-- C5 (amended): in the remote navigator, ascend at the navigation root is a no-op
on the cursor; in the local navigator, ascend applies `os.path.dirname`, which is a
no-op only at the filesystem root `/` and moves any other cursor — the navigation
root (the home directory) included — to its parent. -/
theorem ascend_boundary :
    (∀ (r : String) (items : List String),
      remoteStep ⟨r, []⟩ (.ok items) ".." = .browse ⟨r, []⟩) ∧
    (∀ (home : List String) (l : LocalListing),
      localStep home [] (.ok l) ".." = .browse []) ∧
    (∀ (home cursor : List String) (l : LocalListing),
      localStep home cursor (.ok l) ".." = .browse cursor.dropLast) := by
  refine ⟨?_, ?_, ?_⟩
  · intro r items
    simp only [remoteStep, if_neg (by decide : ¬(pyLower ".." = ['.'] ∨ pyLower ".." = ['d'])),
      if_pos rfl]
    rfl
  · intro home l
    simp only [localStep, if_pos rfl]
    rfl
  · intro home cursor l
    simp [localStep]

/-- Non-root remote ascend recomputed with `os.path.dirname`: a two-entry trail
moves up one level within the remote, but a one-entry trail yields the plain path
`/` (there is no `/` left of the single entry in `gdrive:docs`), so the cursor
leaves the remote namespace. -/
theorem ascend_remote_dirname_cases :
    remoteStep ⟨"gdrive", ["a/", "b/"]⟩ (.ok []) ".." = .browsePath "gdrive:a/" ∧
    remoteStep ⟨"gdrive", ["docs/"]⟩ (.ok []) ".." = .browsePath "/" := by
  constructor <;> decide

/-- C7 counterexample: when `rclone lsf` fails at remote cursor `gdrive:docs/`, the
navigator returns `gdrive:docs/` as the selection — the loop terminates instead of
re-prompting with the cursor unchanged. -/
theorem remote_listing_failure_returns :
    remoteStep ⟨"gdrive", ["docs/"]⟩ (.error ()) "" = .ret (.one "gdrive:docs/") ∧
    RemoteStepResult.ret (.one "gdrive:docs/") ≠ .reprompt ∧
    RemoteStepResult.ret (.one "gdrive:docs/") ≠ .browse ⟨"gdrive", ["docs/"]⟩ := by
  refine ⟨?_, ?_, ?_⟩ <;> decide

/-- C7 (amended): a failing remote listing is reported and ends the navigation by
returning the current path; a missing local directory is reported and resets the
cursor to the home directory; a local permission error is uncaught and crashes the
loop; only the `codes/utils.py` lister turns both failures into an empty listing so
that its loop continues with the cursor unchanged. -/
theorem listing_failure_behavior :
    (∀ (st : RemoteState) (choice : String),
      remoteStep st (.error ()) choice = .ret (.one (renderRemotePath st))) ∧
    (∀ (home cursor : List String) (choice : String),
      localStep home cursor (.error .fileNotFound) choice = .browse home) ∧
    (∀ (home cursor : List String) (choice : String),
      localStep home cursor (.error .permissionError) choice = .crash) ∧
    (∀ (e : ListErr), list_local_folders (.error e) = []) :=
  ⟨fun _ _ => rfl, fun _ _ _ => rfl, fun _ _ _ => rfl, fun _ => rfl⟩

/-- C9: entering exactly one index that resolves to a directory entry descends
(both navigators keep browsing and do not terminate); the current directory is
returned as the selection by the select-current-location command; and in both the
local and the remote navigator, a selection whose single resolved item is not a
directory returns that one full path as a string while a multi-index selection
returns the chosen entries immediately as a list of full paths. -/
theorem navigator_descend_and_select :
    (∀ (home cursor : List String) (l : LocalListing) (choice : String) (k : Int) (it : String),
      choice ≠ ".." → pyLower choice ≠ ['.'] → pyLower choice ≠ ['d'] →
      parseIndices choice = some [k] →
      pyIndex (l.dirs ++ l.files) k = some it →
      l.dirs.contains it = true →
      localStep home cursor (.ok l) choice = .browse (cursor ++ [it])) ∧
    (∀ (st : RemoteState) (items : List String) (choice : String) (k : Int) (it : String),
      choice ≠ ".." → pyLower choice ≠ ['.'] → pyLower choice ≠ ['d'] →
      parseIndices choice = some [k] →
      pyIndex items k = some it →
      endsWithSlash it = true →
      remoteStep st (.ok items) choice = .browse ⟨st.remote, st.segs ++ [it]⟩) ∧
    (∀ (home cursor : List String) (l : LocalListing),
      localStep home cursor (.ok l) "." = .ret (.one (renderPath cursor))) ∧
    (∀ (st : RemoteState) (items : List String),
      remoteStep st (.ok items) "d" = .ret (.one (renderRemotePath st))) ∧
    (∀ (home cursor : List String) (l : LocalListing) (choice : String) (k : Int) (it : String),
      choice ≠ ".." → pyLower choice ≠ ['.'] → pyLower choice ≠ ['d'] →
      parseIndices choice = some [k] →
      pyIndex (l.dirs ++ l.files) k = some it →
      l.dirs.contains it = false →
      localStep home cursor (.ok l) choice = .ret (.one (renderPath (cursor ++ [it])))) ∧
    (∀ (home cursor : List String) (l : LocalListing) (choice : String)
        (idxs : List Int) (it1 it2 : String) (its : List String),
      choice ≠ ".." → pyLower choice ≠ ['.'] → pyLower choice ≠ ['d'] →
      parseIndices choice = some idxs →
      pySelect (l.dirs ++ l.files) idxs = some (it1 :: it2 :: its) →
      localStep home cursor (.ok l) choice =
        .ret (.many ((it1 :: it2 :: its).map (fun it => renderPath (cursor ++ [it]))))) ∧
    (∀ (st : RemoteState) (items : List String) (choice : String) (k : Int) (it : String),
      choice ≠ ".." → pyLower choice ≠ ['.'] → pyLower choice ≠ ['d'] →
      parseIndices choice = some [k] →
      pyIndex items k = some it →
      endsWithSlash it = false →
      remoteStep st (.ok items) choice = .ret (.one (renderRemotePath st ++ it))) ∧
    (∀ (st : RemoteState) (items : List String) (choice : String)
        (idxs : List Int) (it1 it2 : String) (its : List String),
      choice ≠ ".." → pyLower choice ≠ ['.'] → pyLower choice ≠ ['d'] →
      parseIndices choice = some idxs →
      pySelect items idxs = some (it1 :: it2 :: its) →
      remoteStep st (.ok items) choice =
        .ret (.many ((it1 :: it2 :: its).map (fun it => renderRemotePath st ++ it)))) := by
  refine ⟨?_, ?_, ?_, ?_, ?_, ?_, ?_, ?_⟩
  · intro home cursor l choice k it h1 h2 h3 hp hi hd
    rw [localStep_parsed home cursor l choice [k] [it] h1 h2 h3 hp
      (pySelect_singleton _ k it hi)]
    have hmem : it ∈ l.dirs := by simpa using hd
    simp [hmem]
  · intro st items choice k it h1 h2 h3 hp hi hs
    rw [remoteStep_parsed st items choice [k] [it] h1 h2 h3 hp
      (pySelect_singleton _ k it hi)]
    simp [hs]
  · intro home cursor l
    simp only [localStep, if_neg (by decide : ("." : String) ≠ ".."),
      if_pos (Or.inl (by decide : pyLower "." = ['.']))]
  · intro st items
    simp only [remoteStep, if_pos (Or.inr (by decide : pyLower "d" = ['d']))]
  · intro home cursor l choice k it h1 h2 h3 hp hi hd
    rw [localStep_parsed home cursor l choice [k] [it] h1 h2 h3 hp
      (pySelect_singleton _ k it hi)]
    have hmem : it ∉ l.dirs := by simpa using hd
    simp [hmem]
  · intro home cursor l choice idxs it1 it2 its h1 h2 h3 hp hs
    rw [localStep_parsed home cursor l choice idxs (it1 :: it2 :: its) h1 h2 h3 hp hs]
  · intro st items choice k it h1 h2 h3 hp hi hs
    rw [remoteStep_parsed st items choice [k] [it] h1 h2 h3 hp
      (pySelect_singleton _ k it hi)]
    simp [hs]
  · intro st items choice idxs it1 it2 its h1 h2 h3 hp hs
    rw [remoteStep_parsed st items choice idxs (it1 :: it2 :: its) h1 h2 h3 hp hs]

theorem navigator_descend_and_select_witness :
    localStep ["home", "u"] ["home", "u"] (.ok ⟨["docs"], ["f.txt"]⟩) "1" =
      .browse (["home", "u"] ++ ["docs"]) ∧
    remoteStep ⟨"gd", []⟩ (.ok ["a/", "b.txt"]) "1" = .browse ⟨"gd", [] ++ ["a/"]⟩ ∧
    localStep ["home", "u"] ["home", "u"] (.ok ⟨["docs"], ["f.txt"]⟩) "." =
      .ret (.one (renderPath ["home", "u"])) ∧
    remoteStep ⟨"gd", []⟩ (.ok ["a/", "b.txt"]) "d" =
      .ret (.one (renderRemotePath ⟨"gd", []⟩)) ∧
    localStep ["home", "u"] ["home", "u"] (.ok ⟨["docs"], ["f.txt"]⟩) "2" =
      .ret (.one (renderPath (["home", "u"] ++ ["f.txt"]))) ∧
    localStep ["home", "u"] ["home", "u"] (.ok ⟨["docs"], ["f.txt"]⟩) "1,2" =
      .ret (.many (["docs", "f.txt"].map (fun it => renderPath (["home", "u"] ++ [it])))) ∧
    remoteStep ⟨"gd", []⟩ (.ok ["a/", "b.txt"]) "2" =
      .ret (.one (renderRemotePath ⟨"gd", []⟩ ++ "b.txt")) ∧
    remoteStep ⟨"gd", []⟩ (.ok ["a/", "b.txt"]) "1,2" =
      .ret (.many (["a/", "b.txt"].map (fun it => renderRemotePath ⟨"gd", []⟩ ++ it))) :=
  ⟨navigator_descend_and_select.1 _ _ _ "1" 0 "docs" (by decide) (by decide) (by decide)
      (by decide) (by decide) (by decide),
   navigator_descend_and_select.2.1 ⟨"gd", []⟩ _ "1" 0 "a/" (by decide) (by decide) (by decide)
      (by decide) (by decide) (by decide),
   navigator_descend_and_select.2.2.1 _ _ _,
   navigator_descend_and_select.2.2.2.1 ⟨"gd", []⟩ _,
   navigator_descend_and_select.2.2.2.2.1 _ _ _ "2" 1 "f.txt" (by decide) (by decide) (by decide)
      (by decide) (by decide) (by decide),
   navigator_descend_and_select.2.2.2.2.2.1 _ _ _ "1,2" [0, 1] "docs" "f.txt" [] (by decide)
      (by decide) (by decide) (by decide) (by decide),
   navigator_descend_and_select.2.2.2.2.2.2.1 ⟨"gd", []⟩ _ "2" 1 "b.txt" (by decide) (by decide)
      (by decide) (by decide) (by decide) (by decide),
   navigator_descend_and_select.2.2.2.2.2.2.2 ⟨"gd", []⟩ _ "1,2" [0, 1] "a/" "b.txt" []
      (by decide) (by decide) (by decide) (by decide) (by decide)⟩

end RcloneManager
